import Mathlib

/-
Verification of the cyrus-lvm-backup orchestrator (src/cyrus-lvm-backup.py).

The script is a linear pipeline: validate preconditions, stop the mail
service, snapshot its logical volume, restart the service, mount the
snapshot, rsync it to a remote host, clean up, flush the postfix queue and
notify.  We embed it shallowly: every external effect (subprocess call,
systemd property access, syslog write, pushover HTTP post) becomes an
`Action` recorded in a trace, and the outside world's responses are drawn
from a `World` record, one field per call site.  Python exceptions become
an explicit `Except PyErr` result; the module-level globals
`PUSHOVER_TOKEN` / `PUSHOVER_USER_KEY` become an explicit `Globals` value
threaded out of `validate`.

Modelling conventions:
  - Python byte strings such as b'dead' are modelled as plain strings.
  - `subprocess.run` results are `ProcResult` (returncode, optional
    stdout/stderr; `none` models Python `None` when a stream was not
    captured, and Python's f-string rendering of `None` is the text
    "None").
  - Python's `in` on strings is the substring test `pyIn`.
  - The trace records one action per effect in source order; reads of the
    systemd unit's properties inside f-strings of error messages are not
    re-recorded.  `Action.notifyCall` records each invocation of the
    `notify` helper together with its arguments (the observable call
    event), followed by the effects the call performs.
-/

set_option autoImplicit false

namespace CyrusBackup

/-- Errors a run can raise.  `localError` is the script's own
`LocalError(RuntimeError)`; the others model exceptions raised by the
libraries it calls (`subprocess` with check=True, `yaml.safe_load`,
dict lookup). -/
inductive PyErr where
  | localError (msg : String)
  | keyError (key : String)
  | yamlError
  | calledProcessError (rc : Int) (cmd : String)
  deriving DecidableEq

/-- Result of one subprocess invocation: exit status plus captured
stdout/stderr (`none` when the stream was not captured). -/
structure ProcResult where
  returncode : Int
  stdout : Option String
  stderr : Option String
  deriving DecidableEq

/-- Contents of the pushover YAML file once parsed: which keys are
present and their values. -/
structure PushoverData where
  hasUserKey : Bool
  userKey : String
  hasMailBackup : Bool
  mbHasToken : Bool
  token : String
  deriving DecidableEq

/-- The script's module-level globals, set by `validate` and read by
`notify`. -/
structure Globals where
  PUSHOVER_USER_KEY : Option String
  PUSHOVER_TOKEN : Option String
  deriving DecidableEq

/-- Observable effects of a run, one constructor per effectful call site
kind in the source. -/
inductive Action where
  | lvsList
  | toolCheck (cmd : String)
  | mountQuery
  | umountRun (mp : String)
  | mkdirRun (mp : String)
  | lvremoveRun (dev : String)
  | yamlLoad (p : String)
  | unitLoad
  | stopService
  | sleep (n : Nat)
  | querySubState
  | queryActiveState
  | lvcreateRun (cmd : String)
  | startService
  | mountRun (cmd : String)
  | rsyncRun (cmd : String)
  | rmdirRun (mp : String)
  | postqueueFlush
  | notifyCall (pushover : Bool) (msg : String)
  | pushNotify (token user : Option String) (msg : String)
  | openlogCall (facility : Nat)
  | syslogWrite (priority : Nat) (text : String)
  | consolePrint (s : String)
  deriving DecidableEq

abbrev Trace := List Action

instance : DecidableEq (Except PyErr Unit) := fun x y =>
  match x, y with
  | .ok (), .ok () => isTrue rfl
  | .error a, .error b =>
    match decEq a b with
    | isTrue h => isTrue (by rw [h])
    | isFalse h => isFalse (fun hc => h (by cases hc; rfl))
  | .ok (), .error _ => isFalse (fun hc => by cases hc)
  | .error _, .ok () => isFalse (fun hc => by cases hc)

/-- Outcome of a code fragment: normal return or raised exception, plus
the effects it performed. -/
abbrev StepM := Except PyErr Unit × Trace

/-- Command-line arguments of the script. -/
structure Args where
  lv_name : String
  vg_name : String
  rsync_host : String
  pushover_yaml : Option String
  force : Bool
  deriving DecidableEq

/-- Responses of the outside world, one field per call site of the
script (subprocess results, systemd unit states, filesystem facts,
pushover HTTP statuses keyed by message). -/
structure World where
  lvs1rc : Int
  lvs1out : String
  toolRc : String → Int
  toolOut : String → String
  mountPointExists : Bool
  mountQ1rc : Int
  mountQ1out : String
  umountVrc : Int
  umountVerr : String
  mountQ2rc : Int
  mountQ2out : String
  mkdirRc : Int
  mkdirOut : String
  lvs2rc : Int
  lvs2out : String
  lvrmVrc : Int
  pyExists : Bool
  pyParse : Option PushoverData
  subState1 : String
  lvcreateRes : ProcResult
  mountRes : ProcResult
  rsyncRc : Int
  rsyncErr : String
  umountBRes : ProcResult
  lvremoveBRes : ProcResult
  rmdirRc : Int
  rmdirErr : String
  activeState2 : String
  subState2 : String
  postqRc : Int
  postqOut : String
  pushStatus : String → Nat

/-- Does `pat` occur at the start of `l`? -/
def startsW : List Char → List Char → Bool
  | [], _ => true
  | _ :: _, [] => false
  | a :: as, b :: bs => a == b && startsW as bs

/-- Does `pat` occur anywhere inside `l`? -/
def hasSub (pat : List Char) : List Char → Bool
  | [] => startsW pat []
  | b :: bs => startsW pat (b :: bs) || hasSub pat bs

/-- Python's `needle in hay` on strings: substring containment. -/
def pyIn (needle hay : String) : Bool := hasSub needle.toList hay.toList

/-- Drop leading whitespace. -/
def stripL : List Char → List Char
  | [] => []
  | c :: cs => if c.isWhitespace then stripL cs else c :: cs

/-- Python's `str.strip()`: remove leading and trailing whitespace
(whitespace per `Char.isWhitespace`). -/
def pyStrip (s : String) : String :=
  ⟨(stripL (stripL s.toList).reverse).reverse⟩

/-- Python f-string rendering of a value that may be `None`. -/
def pyStrOfOpt : Option String → String
  | none => "None"
  | some s => s

/-- Python `repr` of the exceptions we model (approximate for the
library exceptions; only its use as a notification message matters). -/
def reprErr : PyErr → String
  | .localError m => "LocalError(\x27" ++ m ++ "\x27)"
  | .keyError k => "KeyError(\x27" ++ k ++ "\x27)"
  | .yamlError => "YAMLError()"
  | .calledProcessError rc cmd =>
      "CalledProcessError(" ++ toString rc ++ ", \x27" ++ cmd ++ "\x27)"

/-- Sequencing with exception short-circuit, accumulating the trace
(models straight-line Python statements). -/
def seqS (x : StepM) (y : Unit → StepM) : StepM :=
  match x with
  | (.error e, t) => (.error e, t)
  | (.ok _, t) => ((y ()).1, t ++ (y ()).2)

/-- A fragment that only performs effects. -/
def emit (t : Trace) : StepM := (.ok (), t)

/-- Derived name: mount point (source line 34). -/
def mount_point (a : Args) : String := "/mnt/" ++ a.lv_name ++ "_bkup"

/-- Derived name: snapshot volume (source line 35). -/
def backup_vol (a : Args) : String := a.lv_name ++ "_bkup"

/-- Derived name: fully qualified source volume (source line 36). -/
def lv_full_name (a : Args) : String := a.vg_name ++ "/" ++ a.lv_name

/-- Derived name: fully qualified snapshot volume (source line 37). -/
def bkup_lv_full_name (a : Args) : String := a.vg_name ++ "/" ++ backup_vol a

/-- Source line 85 / 87 / 90: the notify mode flag `pushover_yaml is not
None`. -/
def pushoverFlag (a : Args) : Bool := a.pushover_yaml.isSome

def LOG_ERR : Nat := 3
def LOG_MAIL : Nat := 16

/-- Source line 47: message of the stop failure.  The source string is
not an f-string, so the placeholder is literal text. -/
def stopFailMsg : String :=
  "Failed to stop cyrus-imapd. systemd unit is in state \x7bcyrus.SubState\x7d"

/-- Source line 74: context message for the snapshot-removal failure
(not an f-string; the placeholders are literal text). -/
def lvremoveBodyMsg : String :=
  "Failed to remove logical volume \x7bvg_name\x7d/\x7bbackup_vol\x7d"

/-- Source line 170: context message for the force-path volume-removal
failure (not an f-string; the placeholder is literal text). -/
def lvremoveForceMsg : String :=
  "Failed to remove logical volume \x7bbkup_lv_name\x7d"

/-- Source line 114: message of the pushover delivery failure (not an
f-string; the placeholder is literal text). -/
def pushFailMsg : String :=
  "Unable to send pushover notification: HTTP \x7bresp.status_code\x7d"

/-- Source lines 99-104, `check_proc`: echo non-empty stdout on
success, raise `LocalError` combining the context message and captured
stderr on failure. -/
def check_proc (proc : ProcResult) (err_msg : String) : StepM :=
  if proc.returncode == 0 then
    (.ok (),
      match proc.stdout with
      | some s => if s != "" && pyStrip s != "" then [Action.consolePrint (pyStrip s)] else []
      | none => [])
  else
    (.error (.localError (err_msg ++ ": " ++ pyStrOfOpt proc.stderr)), [])

/-- Run one external command (recorded as `act`) and `check_proc` its
result. -/
def runCk (act : Action) (res : ProcResult) (msg : String) : StepM :=
  ((check_proc res msg).1, act :: (check_proc res msg).2)

/-- Source lines 107-117, `notify`: in push mode post the form payload
(token, user key, message) to the pushover endpoint and raise on a
non-200 status; otherwise write to the mail-facility syslog.  Note the
source's `syslog(LOG_ERR, 'msg')` logs the literal text "msg". -/
def notify (g : Globals) (statusOf : String → Nat) (pushover : Bool) (msg : String) : StepM :=
  if pushover then
    if statusOf msg != 200 then
      (.error (.localError pushFailMsg),
       [Action.notifyCall pushover msg,
        Action.pushNotify g.PUSHOVER_TOKEN g.PUSHOVER_USER_KEY msg])
    else
      (.ok (),
       [Action.notifyCall pushover msg,
        Action.pushNotify g.PUSHOVER_TOKEN g.PUSHOVER_USER_KEY msg])
  else
    (.ok (),
     [Action.notifyCall pushover msg, Action.openlogCall LOG_MAIL,
      Action.syslogWrite LOG_ERR "msg"])

/-- The `lvs` listing command string (source lines 125 and 165). -/
def lvsCmd : String := "lvs --options lv_full_name --noheadings"

/-- Source lines 125-128: run `lvs` (check=True) and require the full
volume name to occur in the stripped listing.  `lvFull` is the value the
caller passes for the `lv_name` parameter (the fully qualified name). -/
def lvsCheck1 (lvFull : String) (w : World) : StepM :=
  if w.lvs1rc != 0 then
    (.error (.calledProcessError w.lvs1rc lvsCmd), [Action.lvsList])
  else if pyIn lvFull (pyStrip w.lvs1out) then (.ok (), [Action.lvsList])
  else (.error (.localError ("LVM volume " ++ lvFull ++ " not found")), [Action.lvsList])

/-- Source lines 130-135: the tool availability tests. -/
def toolTests : List (String × String) :=
  [("rsync --version", "protocol version"),
   ("lvcreate --version", "LVM version"),
   ("lvremove --version", "LVM version"),
   ("mount --version", "mount from util-linux"),
   ("umount --version", "umount from util-linux"),
   ("postqueue -p", "")]

/-- Source lines 137-140: run each tool test (check=True) and require
the expected substring in its stdout. -/
def runToolTests (w : World) : List (String × String) → StepM
  | [] => (.ok (), [])
  | (cmd, outp) :: rest =>
    if w.toolRc cmd != 0 then
      (.error (.calledProcessError (w.toolRc cmd) cmd), [Action.toolCheck cmd])
    else if pyIn outp (w.toolOut cmd) then
      let r := runToolTests w rest
      (r.1, Action.toolCheck cmd :: r.2)
    else
      (.error (.localError ("Output from \"" ++ cmd ++ "\" (" ++ pyStrip (w.toolOut cmd)
               ++ ")did not match expected \"" ++ outp ++ "\"")), [Action.toolCheck cmd])

/-- Source lines 146-151: the force-path umount of a mounted leftover
mount point. -/
def umountForce (mp : String) (w : World) : StepM :=
  if w.umountVrc != 0 then
    if w.umountVerr != "" then
      (.error (.localError ("umount error: " ++ pyStrip w.umountVerr)), [Action.umountRun mp])
    else
      (.error (.localError ("umount exited " ++ toString w.umountVrc)), [Action.umountRun mp])
  else (.ok (), [Action.umountRun mp])

/-- Source lines 158-163: create the mount-point directory. -/
def mkdirStep (mp : String) (w : World) : StepM :=
  if w.mkdirRc != 0 then
    if w.mkdirOut != "" then
      (.error (.localError ("mkdir failed: " ++ pyStrip w.mkdirOut)), [Action.mkdirRun mp])
    else
      (.error (.localError ("mkdir failed (exited " ++ toString w.mkdirRc ++ ")")),
       [Action.mkdirRun mp])
  else (.ok (), [Action.mkdirRun mp])

/-- Source lines 142-163: the mount-point section of `validate`. -/
def mountPointSection (a : Args) (w : World) : StepM :=
  if w.mountPointExists then
    if a.force then
      if w.mountQ1rc != 0 then
        (.error (.calledProcessError w.mountQ1rc "mount"), [Action.mountQuery])
      else if pyIn ("on " ++ mount_point a ++ " ") w.mountQ1out then
        seqS (emit [Action.mountQuery]) fun _ =>
        seqS (umountForce (mount_point a) w) fun _ =>
        if w.mountQ2rc != 0 then
          (.error (.calledProcessError w.mountQ2rc "mount"), [Action.mountQuery])
        else if pyIn ("on " ++ mount_point a ++ " ") w.mountQ2out then
          (.error (.localError ("Unable to unmount " ++ mount_point a)), [Action.mountQuery])
        else (.ok (), [Action.mountQuery])
      else (.ok (), [Action.mountQuery])
    else (.error (.localError ("mount point " ++ mount_point a ++ " exists")), [])
  else mkdirStep (mount_point a) w

/-- Source lines 165-172: the leftover-backup-volume section of
`validate`.  The force-path `lvremove` is run without output capture, so
its `ProcResult` has `none` streams. -/
def bkupSection (a : Args) (w : World) : StepM :=
  if w.lvs2rc != 0 then
    (.error (.calledProcessError w.lvs2rc lvsCmd), [Action.lvsList])
  else if pyIn (bkup_lv_full_name a) (pyStrip w.lvs2out) then
    if a.force then
      seqS (emit [Action.lvsList]) fun _ =>
        runCk (Action.lvremoveRun ("/dev/" ++ bkup_lv_full_name a)) ⟨w.lvrmVrc, none, none⟩
          lvremoveForceMsg
    else
      (.error (.localError ("Backup LV present (" ++ bkup_lv_full_name a ++ ")")), [Action.lvsList])
  else (.ok (), [Action.lvsList])

/-- Source lines 175-187: the pushover-credentials section of
`validate`.  Returns the resulting global state as well: the source
assigns `PUSHOVER_USER_KEY` before `PUSHOVER_TOKEN`, so a `KeyError`
raised by the token lookup leaves the user key set.  The guarding
condition is the source's literal `not A and B and C` (the `not` binds
only to the first conjunct). -/
def pushoverSection (p? : Option String) (w : World) : Except PyErr Unit × Trace × Globals :=
  match p? with
  | none => (.ok (), [], ⟨none, none⟩)
  | some p =>
    if p == "" then (.ok (), [], ⟨none, none⟩)
    else if !w.pyExists then
      (.error (.localError ("Pushover YAML file " ++ p ++ " does not exist")), [], ⟨none, none⟩)
    else
      match w.pyParse with
      | none => (.error .yamlError, [Action.yamlLoad p], ⟨none, none⟩)
      | some d =>
        if (!d.hasUserKey) && d.hasMailBackup && d.mbHasToken then
          (.error (.localError "Structure of YAML pushover file incorrect"),
           [Action.yamlLoad p], ⟨none, none⟩)
        else if !d.hasUserKey then
          (.error (.keyError "user_key"), [Action.yamlLoad p], ⟨none, none⟩)
        else if !d.hasMailBackup then
          (.error (.keyError "MailBackup"), [Action.yamlLoad p], ⟨some d.userKey, none⟩)
        else if !d.mbHasToken then
          (.error (.keyError "token"), [Action.yamlLoad p], ⟨some d.userKey, none⟩)
        else (.ok (), [Action.yamlLoad p], ⟨some d.userKey, some d.token⟩)

/-- Source lines 120-172: `validate` up to (excluding) the pushover
section. -/
def validatePre (a : Args) (w : World) : StepM :=
  seqS (lvsCheck1 (lv_full_name a) w) fun _ =>
  seqS (runToolTests w toolTests) fun _ =>
  seqS (mountPointSection a w) fun _ =>
  bkupSection a w

/-- Source lines 120-187: `validate`, returning the outcome, the trace
and the final global credential state. -/
def validate (a : Args) (w : World) : Except PyErr Unit × Trace × Globals :=
  match validatePre a w with
  | (.error e, t) => (.error e, t, ⟨none, none⟩)
  | (.ok _, t) =>
    let r := pushoverSection a.pushover_yaml w
    (r.1, t ++ r.2.1, r.2.2)

/-- Source line 50: the lvcreate command string. -/
def lvcreateCmd (a : Args) : String :=
  "lvcreate --snapshot --name " ++ backup_vol a ++ " --size 100M /dev/" ++ lv_full_name a

/-- Source line 58: the mount command string. -/
def mountCmd (a : Args) : String :=
  "mount /dev/" ++ a.vg_name ++ "/" ++ backup_vol a ++ " " ++ mount_point a ++ " -o ro"

/-- Source lines 63-65: the rsync command string (with the source's
duplicated `--numeric-ids`). -/
def rsyncCmd (a : Args) : String :=
  "rsync --archive --relative --sparse --hard-links --one-file-system --delete "
  ++ "--numeric-ids --rsh=ssh --fake-super --numeric-ids " ++ mount_point a ++ " "
  ++ a.rsync_host ++ ":" ++ a.lv_name

/-- Source lines 79-81: message of the post-backup health failure
(an f-string; note the missing space before the second value). -/
def healthMsg (act sub : String) : String :=
  "cyrus-imapd may be down after backup: ActiveState " ++ act ++ " SubState" ++ sub

/-- Source lines 79-81: the health check.  Python's `and` short-circuits,
so `SubState` is only read when `ActiveState` is "active". -/
def healthCheck (w : World) : StepM :=
  if w.activeState2 == "active" then
    if w.subState2 == "running" then
      (.ok (), [Action.queryActiveState, Action.querySubState])
    else
      (.error (.localError (healthMsg w.activeState2 w.subState2)),
       [Action.queryActiveState, Action.querySubState])
  else
    (.error (.localError (healthMsg w.activeState2 w.subState2)), [Action.queryActiveState])

/-- Source lines 42-87: the body of the `try` block after `validate`
succeeded (`g` is the global credential state it left behind). -/
def body (a : Args) (w : World) (g : Globals) : StepM :=
  seqS (emit [Action.unitLoad, Action.stopService, Action.sleep 5, Action.querySubState]) fun _ =>
  seqS (if w.subState1 != "dead" then (.error (.localError stopFailMsg), []) else emit []) fun _ =>
  seqS (runCk (Action.lvcreateRun (lvcreateCmd a)) w.lvcreateRes "Failed to create snapshot") fun _ =>
  seqS (emit [Action.startService]) fun _ =>
  seqS (runCk (Action.mountRun (mountCmd a)) w.mountRes "Failed to mount snapshot") fun _ =>
  seqS (runCk (Action.rsyncRun (rsyncCmd a)) ⟨w.rsyncRc, none, some w.rsyncErr⟩
        "Failed to rsync to backup host") fun _ =>
  seqS (runCk (Action.umountRun (mount_point a)) w.umountBRes ("Failed to unmount " ++ mount_point a)) fun _ =>
  seqS (runCk (Action.lvremoveRun ("/dev/" ++ a.vg_name ++ "/" ++ backup_vol a))
        w.lvremoveBRes lvremoveBodyMsg) fun _ =>
  seqS (runCk (Action.rmdirRun (mount_point a)) ⟨w.rmdirRc, none, some w.rmdirErr⟩
        ("Failed to remove mountpoint directory " ++ mount_point a)) fun _ =>
  seqS (healthCheck w) fun _ =>
  seqS (emit [Action.postqueueFlush]) fun _ =>
  seqS (if w.postqRc != 0 then
          notify g w.pushStatus (pushoverFlag a) ("Failed to flush postfix queue: " ++ w.postqOut)
        else emit []) fun _ =>
  notify g w.pushStatus (pushoverFlag a) "Successfully backed up cyrus volume"

/-- Source lines 31-97, `main`: validate then run the body; any raised
exception is notified and re-raised; the `finally` block issues one more
start command provided the unit handle was created (it is created right
after `validate` returns, so a validation failure leaves it `None` and
no start is issued). -/
def runMain (a : Args) (w : World) : Except PyErr Unit × Trace :=
  let v := validate a w
  let g := v.2.2
  match v.1 with
  | .error e =>
    let n := notify g w.pushStatus (pushoverFlag a) (reprErr e)
    ((match n.1 with
      | .ok _ => Except.error e
      | .error e2 => Except.error e2), v.2.1 ++ n.2)
  | .ok _ =>
    let b := body a w g
    match b.1 with
    | .ok _ => (.ok (), v.2.1 ++ b.2 ++ [Action.startService])
    | .error e =>
      let n := notify g w.pushStatus (pushoverFlag a) (reprErr e)
      ((match n.1 with
        | .ok _ => Except.error e
        | .error e2 => Except.error e2), v.2.1 ++ b.2 ++ n.2 ++ [Action.startService])

/-- Is the action a syslog write? -/
def isSyslog : Action → Bool
  | Action.syslogWrite _ _ => true
  | _ => false

/-- Is the action a pushover HTTP post? -/
def isPush : Action → Bool
  | Action.pushNotify _ _ _ => true
  | _ => false

/-- Is the action a snapshot-creation command? -/
def isLvcreate : Action → Bool
  | Action.lvcreateRun _ => true
  | _ => false

/-- Is the action one of the destructive ones named by the spec: stop
the service, create a snapshot, mount, replicate? -/
def isDestructive : Action → Bool
  | Action.stopService => true
  | Action.lvcreateRun _ => true
  | Action.mountRun _ => true
  | Action.rsyncRun _ => true
  | _ => false

/-- Actions that `validate` can emit (none of them touches the mail
service, creates a snapshot, mounts the snapshot, replicates, or
notifies). -/
def validateEmittable : Action → Bool
  | Action.lvsList => true
  | Action.toolCheck _ => true
  | Action.mountQuery => true
  | Action.umountRun _ => true
  | Action.mkdirRun _ => true
  | Action.lvremoveRun _ => true
  | Action.yamlLoad _ => true
  | Action.consolePrint _ => true
  | _ => false

/-- The messages of the `notify` invocations recorded in a trace, in
order. -/
def notifyMsgs : Trace → List String
  | [] => []
  | Action.notifyCall _ m :: t => m :: notifyMsgs t
  | _ :: t => notifyMsgs t

/-! Infrastructure lemmas about traces. -/

theorem seqS_trace_all {p : Action → Bool} {x : StepM} {y : Unit → StepM}
    (hx : x.2.all p = true) (hy : ((y ()).2.all p) = true) :
    ((seqS x y).2.all p) = true := by
  unfold seqS
  rcases x with ⟨r, t⟩
  cases r <;> simp_all [List.all_append]

theorem check_proc_trace_all {p : Action → Bool} (res : ProcResult) (msg : String)
    (hc : ∀ s, p (Action.consolePrint s) = true) :
    ((check_proc res msg).2.all p) = true := by
  unfold check_proc
  split
  · cases hs : res.stdout with
    | none => simp [hs]
    | some s =>
      simp only [hs]
      split <;> simp [hc]
  · simp

theorem runCk_trace_all {p : Action → Bool} (act : Action) (res : ProcResult) (msg : String)
    (ha : p act = true) (hc : ∀ s, p (Action.consolePrint s) = true) :
    ((runCk act res msg).2.all p) = true := by
  unfold runCk
  simp [ha, check_proc_trace_all res msg hc]

theorem runToolTests_trace_all {p : Action → Bool} (w : World)
    (h : ∀ c, p (Action.toolCheck c) = true) :
    ∀ l, ((runToolTests w l).2.all p) = true := by
  intro l
  induction l with
  | nil => simp [runToolTests]
  | cons hd tl ih =>
    rcases hd with ⟨cmd, outp⟩
    unfold runToolTests
    split
    · simp [h]
    · split
      · simp [h, ih]
      · simp [h]

theorem lvsCheck1_trace_all {p : Action → Bool} (lvFull : String) (w : World)
    (h : p Action.lvsList = true) :
    ((lvsCheck1 lvFull w).2.all p) = true := by
  unfold lvsCheck1
  split <;> try simp [h]
  split <;> simp [h]

theorem umountForce_trace_all {p : Action → Bool} (mp : String) (w : World)
    (hu : ∀ s, p (Action.umountRun s) = true) :
    ((umountForce mp w).2.all p) = true := by
  unfold umountForce
  split
  · split <;> simp [hu]
  · simp [hu]

theorem mkdirStep_trace_all {p : Action → Bool} (mp : String) (w : World)
    (hm : ∀ s, p (Action.mkdirRun s) = true) :
    ((mkdirStep mp w).2.all p) = true := by
  unfold mkdirStep
  split
  · split <;> simp [hm]
  · simp [hm]

theorem mountPointSection_trace_all {p : Action → Bool} (a : Args) (w : World)
    (hq : p Action.mountQuery = true) (hu : ∀ s, p (Action.umountRun s) = true)
    (hm : ∀ s, p (Action.mkdirRun s) = true) :
    ((mountPointSection a w).2.all p) = true := by
  unfold mountPointSection
  repeat' split
  all_goals
    first
    | exact seqS_trace_all (by simp [emit, hq])
        (seqS_trace_all (umountForce_trace_all _ _ hu) (by simp [hq]))
    | exact mkdirStep_trace_all _ _ hm
    | simp [hq]

theorem bkupSection_trace_all {p : Action → Bool} (a : Args) (w : World)
    (h : p Action.lvsList = true) (hr : ∀ s, p (Action.lvremoveRun s) = true)
    (hc : ∀ s, p (Action.consolePrint s) = true) :
    ((bkupSection a w).2.all p) = true := by
  unfold bkupSection
  repeat' split
  all_goals
    first
    | exact seqS_trace_all (by simp [emit, h]) (runCk_trace_all _ _ _ (hr _) hc)
    | simp [h]

theorem pushoverSection_trace_all {p : Action → Bool} (p? : Option String) (w : World)
    (h : ∀ s, p (Action.yamlLoad s) = true) :
    (((pushoverSection p? w).2.1.all p) = true) := by
  unfold pushoverSection
  rcases p? with _ | pth
  · simp
  · simp only
    repeat' split
    all_goals simp [h]

/-- Every action `validate` emits is of a kind `validate` can emit: in
particular `validate` never stops or starts the service, never creates
or mounts a snapshot, never replicates and never notifies. -/
theorem validate_trace_all {p : Action → Bool} (a : Args) (w : World)
    (hp : ∀ x, validateEmittable x = true → p x = true) :
    (((validate a w).2.1.all p) = true) := by
  have hVP : ((validatePre a w).2.all p) = true := by
    unfold validatePre
    refine seqS_trace_all (lvsCheck1_trace_all _ _ (hp _ rfl)) ?_
    refine seqS_trace_all (runToolTests_trace_all _ (fun c => hp _ rfl) _) ?_
    refine seqS_trace_all
      (mountPointSection_trace_all _ _ (hp _ rfl) (fun s => hp _ rfl) (fun s => hp _ rfl)) ?_
    exact bkupSection_trace_all _ _ (hp _ rfl) (fun s => hp _ rfl) (fun s => hp _ rfl)
  unfold validate
  split
  · next heq =>
      rw [show (validatePre a w).2 = _ from congrArg Prod.snd heq] at hVP
      simpa using hVP
  · next heq =>
      rw [show (validatePre a w).2 = _ from congrArg Prod.snd heq] at hVP
      simp only
      simpa [List.all_append, hVP] using
        pushoverSection_trace_all a.pushover_yaml w (fun s => hp _ rfl)

theorem notify_trace_all {p : Action → Bool} (g : Globals) (st : String → Nat)
    (b : Bool) (m : String)
    (h1 : ∀ b m, p (Action.notifyCall b m) = true)
    (h2 : ∀ t u m, p (Action.pushNotify t u m) = true)
    (h3 : ∀ f, p (Action.openlogCall f) = true)
    (h4 : ∀ pr s, p (Action.syslogWrite pr s) = true) :
    ((notify g st b m).2.all p) = true := by
  unfold notify
  repeat' split
  all_goals simp [h1, h2, h3, h4]

/-- The trace of a push-mode `notify` call. -/
theorem notify_trace_push (g : Globals) (st : String → Nat) (m : String) :
    (notify g st true m).2
      = [Action.notifyCall true m,
         Action.pushNotify g.PUSHOVER_TOKEN g.PUSHOVER_USER_KEY m] := by
  unfold notify
  by_cases hst : (st m != 200) = true
  · simp [hst]
  · simp [hst]

/-- A push-mode `notify` whose HTTP status is 200 succeeds. -/
theorem notify_push_ok (g : Globals) (st : String → Nat) (m : String)
    (h : st m = 200) :
    notify g st true m
      = (Except.ok (), [Action.notifyCall true m,
          Action.pushNotify g.PUSHOVER_TOKEN g.PUSHOVER_USER_KEY m]) := by
  unfold notify
  simp [h]

/-- A log-mode `notify` call always succeeds with the fixed syslog trace. -/
theorem notify_log (g : Globals) (st : String → Nat) (m : String) :
    notify g st false m
      = (Except.ok (), [Action.notifyCall false m, Action.openlogCall LOG_MAIL,
          Action.syslogWrite LOG_ERR "msg"]) := rfl

theorem notifyMsgs_append (s t : Trace) :
    notifyMsgs (s ++ t) = notifyMsgs s ++ notifyMsgs t := by
  induction s with
  | nil => rfl
  | cons hd tl ih =>
    cases hd <;> simp [notifyMsgs, ih]

theorem notifyMsgs_eq_nil_of_emittable (t : Trace)
    (h : t.all validateEmittable = true) : notifyMsgs t = [] := by
  induction t with
  | nil => rfl
  | cons hd tl ih =>
    simp only [List.all_cons, Bool.and_eq_true] at h
    cases hd <;> first
      | exact ih h.2
      | simp [validateEmittable] at h

/-- The trace of `body` always begins with unit load, stop, the 5-unit
sleep and the sub-state query. -/
theorem body_trace_decomp (a : Args) (w : World) (g : Globals) :
    ∃ r, (body a w g).2
      = [Action.unitLoad, Action.stopService, Action.sleep 5, Action.querySubState] ++ r :=
  ⟨_, rfl⟩

/-- When the sub-state after the stop is not "dead", `body` raises the
stop-failure error immediately. -/
theorem body_stop_fail (a : Args) (w : World) (g : Globals) (hd : w.subState1 ≠ "dead") :
    body a w g
      = (Except.error (PyErr.localError stopFailMsg),
         [Action.unitLoad, Action.stopService, Action.sleep 5, Action.querySubState]) := by
  unfold body
  have hbne : (w.subState1 != "dead") = true := by simp [hd]
  simp [seqS, emit, hbne]

/-- Decomposition of `runMain` when validation fails: the trace is the
validation trace followed by the failure notification, and no start
command is issued. -/
theorem runMain_val_err (a : Args) (w : World) (e : PyErr)
    (h : (validate a w).1 = Except.error e) :
    (runMain a w).2
      = (validate a w).2.1
        ++ (notify (validate a w).2.2 w.pushStatus (pushoverFlag a) (reprErr e)).2 := by
  simp only [runMain]
  rw [h]

theorem runMain_val_err_notok (a : Args) (w : World) (e : PyErr)
    (h : (validate a w).1 = Except.error e) :
    (runMain a w).1 ≠ Except.ok () := by
  simp only [runMain]
  rw [h]
  cases hn : (notify (validate a w).2.2 w.pushStatus (pushoverFlag a) (reprErr e)).1 <;>
    simp [hn]

/-- Decomposition of `runMain` on the fully successful path. -/
theorem runMain_ok_ok (a : Args) (w : World)
    (h : (validate a w).1 = Except.ok ())
    (hb : (body a w (validate a w).2.2).1 = Except.ok ()) :
    runMain a w
      = (Except.ok (),
         (validate a w).2.1 ++ (body a w (validate a w).2.2).2 ++ [Action.startService]) := by
  simp only [runMain]
  rw [h]
  simp only
  rw [hb]

/-- Decomposition of `runMain` when validation succeeds and the body
fails: the failure notification runs and the final start command is
still issued. -/
theorem runMain_ok_err_trace (a : Args) (w : World) (e : PyErr)
    (h : (validate a w).1 = Except.ok ())
    (hb : (body a w (validate a w).2.2).1 = Except.error e) :
    (runMain a w).2
      = (validate a w).2.1 ++ (body a w (validate a w).2.2).2
        ++ (notify (validate a w).2.2 w.pushStatus (pushoverFlag a) (reprErr e)).2
        ++ [Action.startService] := by
  simp only [runMain]
  rw [h]
  simp only
  rw [hb]

theorem runMain_ok_err_notok (a : Args) (w : World) (e : PyErr)
    (h : (validate a w).1 = Except.ok ())
    (hb : (body a w (validate a w).2.2).1 = Except.error e) :
    (runMain a w).1 ≠ Except.ok () := by
  simp only [runMain]
  rw [h]
  simp only
  rw [hb]
  cases hn : (notify (validate a w).2.2 w.pushStatus (pushoverFlag a)
      (reprErr e)).1 <;> simp [hn]

/-- Baseline arguments: no pushover file, no force flag. -/
def args0 : Args := ⟨"lv", "vg", "bhost", none, false⟩

/-- Arguments with a pushover credentials path supplied. -/
def argsPush : Args := ⟨"lv", "vg", "bhost", some "/etc/po.yaml", false⟩

/-- Baseline world: every precondition holds and every step succeeds. -/
def w0 : World where
  lvs1rc := 0
  lvs1out := "vg/lv"
  toolRc := fun _ => 0
  toolOut := fun _ => "protocol version LVM version mount from util-linux umount from util-linux"
  mountPointExists := false
  mountQ1rc := 0
  mountQ1out := ""
  umountVrc := 0
  umountVerr := ""
  mountQ2rc := 0
  mountQ2out := ""
  mkdirRc := 0
  mkdirOut := ""
  lvs2rc := 0
  lvs2out := "vg/lv"
  lvrmVrc := 0
  pyExists := true
  pyParse := some ⟨true, "uk", true, true, "tk"⟩
  subState1 := "dead"
  lvcreateRes := ⟨0, some "", some ""⟩
  mountRes := ⟨0, some "", some ""⟩
  rsyncRc := 0
  rsyncErr := ""
  umountBRes := ⟨0, some "", some ""⟩
  lvremoveBRes := ⟨0, some "", some ""⟩
  rmdirRc := 0
  rmdirErr := ""
  activeState2 := "active"
  subState2 := "running"
  postqRc := 0
  postqOut := ""
  pushStatus := fun _ => 200

/-- World whose volume listing does not contain the source volume. -/
def wNoVol : World := { w0 with lvs1out := "novol" }

theorem all_mono {p q : Action → Bool} (h : ∀ x, p x = true → q x = true) :
    ∀ {t : Trace}, t.all p = true → t.all q = true := by
  intro t ht
  rw [List.all_eq_true] at ht ⊢
  exact fun x hx => h x (ht x hx)

theorem not_mem_validate_trace (a : Args) (w : World) {x : Action}
    (hx : validateEmittable x = false) : x ∉ (validate a w).2.1 := by
  intro hmem
  have hall := validate_trace_all a w (p := validateEmittable) (fun _ h => h)
  have hx2 := List.all_eq_true.mp hall x hmem
  rw [hx] at hx2
  cases hx2

theorem seqS_ok_full {x : StepM} {y : Unit → StepM} (hx : x.1 = Except.ok ()) :
    seqS x y = ((y ()).1, x.2 ++ (y ()).2) := by
  unfold seqS
  rcases x with ⟨r, t⟩
  cases r <;> simp_all

theorem seqS_err {x : StepM} {y : Unit → StepM} {e : PyErr} (hx : x.1 = Except.error e) :
    seqS x y = x := by
  unfold seqS
  rcases x with ⟨r, t⟩
  cases r <;> simp_all

theorem mem_seqS_left {x : StepM} {y : Unit → StepM} {z : Action} (h : z ∈ x.2) :
    z ∈ (seqS x y).2 := by
  unfold seqS
  rcases x with ⟨r, t⟩
  cases r <;> simp_all

theorem mem_seqS_right {x : StepM} {y : Unit → StepM} {z : Action}
    (hx : x.1 = Except.ok ()) (h : z ∈ (y ()).2) : z ∈ (seqS x y).2 := by
  unfold seqS
  rcases x with ⟨r, t⟩
  cases r <;> simp_all

theorem validate_eq_of_pre_err (a : Args) (w : World) (e : PyErr)
    (h : (validatePre a w).1 = Except.error e) :
    validate a w = (Except.error e, (validatePre a w).2, ⟨none, none⟩) := by
  unfold validate
  rcases hvp : validatePre a w with ⟨r, t⟩
  rw [hvp] at h
  simp only at h
  subst h
  simp [hvp]

theorem validate_eq_of_pre_ok (a : Args) (w : World)
    (h : (validatePre a w).1 = Except.ok ()) :
    validate a w = ((pushoverSection a.pushover_yaml w).1,
      (validatePre a w).2 ++ (pushoverSection a.pushover_yaml w).2.1,
      (pushoverSection a.pushover_yaml w).2.2) := by
  unfold validate
  rcases hvp : validatePre a w with ⟨r, t⟩
  rw [hvp] at h
  simp only at h
  subst h
  simp [hvp]

theorem stop_in_runMain_of_validate_ok (a : Args) (w : World)
    (h : (validate a w).1 = Except.ok ()) : Action.stopService ∈ (runMain a w).2 := by
  obtain ⟨r, hr⟩ := body_trace_decomp a w (validate a w).2.2
  cases hb : (body a w (validate a w).2.2).1 with
  | ok u =>
    cases u
    rw [show runMain a w = _ from runMain_ok_ok a w h hb]
    simp [hr]
  | error e =>
    rw [runMain_ok_err_trace a w e h hb]
    simp [hr]

theorem stop_notin_notify (g : Globals) (st : String → Nat) (b : Bool) (m : String) :
    Action.stopService ∉ (notify g st b m).2 := by
  intro hmem
  have hall := notify_trace_all (p := fun x => !(x == Action.stopService)) g st b m
    (by intros; simp) (by intros; simp) (by intros; simp) (by intros; simp)
  have hx := List.all_eq_true.mp hall _ hmem
  simp at hx

theorem stop_notin_runMain_of_validate_err (a : Args) (w : World) (e : PyErr)
    (h : (validate a w).1 = Except.error e) :
    Action.stopService ∉ (runMain a w).2 := by
  rw [runMain_val_err a w e h]
  intro hmem
  rcases List.mem_append.mp hmem with h1 | h2
  · exact not_mem_validate_trace a w (x := Action.stopService) rfl h1
  · exact stop_notin_notify _ _ _ _ h2

/-- Actions that are not produced by the `notify` helper. -/
def nonNotify : Action → Bool
  | Action.notifyCall _ _ => false
  | Action.pushNotify _ _ _ => false
  | Action.openlogCall _ => false
  | Action.syslogWrite _ _ => false
  | _ => true

theorem healthCheck_trace_all {p : Action → Bool} (w : World)
    (h1 : p Action.queryActiveState = true) (h2 : p Action.querySubState = true) :
    ((healthCheck w).2.all p) = true := by
  unfold healthCheck
  repeat' split
  all_goals simp [h1, h2]

/-- Every action of `body` is either a non-notification step action or
comes from a `notify` call with the run's pushover flag. -/
theorem body_trace_all {p : Action → Bool} (a : Args) (w : World) (g : Globals)
    (hs : ∀ x, nonNotify x = true → p x = true)
    (hn : ∀ m, ((notify g w.pushStatus (pushoverFlag a) m).2.all p) = true) :
    ((body a w g).2.all p) = true := by
  unfold body
  refine seqS_trace_all (all_mono hs rfl) ?_
  refine seqS_trace_all (by split <;> rfl) ?_
  refine seqS_trace_all (runCk_trace_all _ _ _ (hs _ rfl) (fun s => hs _ rfl)) ?_
  refine seqS_trace_all (all_mono hs rfl) ?_
  refine seqS_trace_all (runCk_trace_all _ _ _ (hs _ rfl) (fun s => hs _ rfl)) ?_
  refine seqS_trace_all (runCk_trace_all _ _ _ (hs _ rfl) (fun s => hs _ rfl)) ?_
  refine seqS_trace_all (runCk_trace_all _ _ _ (hs _ rfl) (fun s => hs _ rfl)) ?_
  refine seqS_trace_all (runCk_trace_all _ _ _ (hs _ rfl) (fun s => hs _ rfl)) ?_
  refine seqS_trace_all (runCk_trace_all _ _ _ (hs _ rfl) (fun s => hs _ rfl)) ?_
  refine seqS_trace_all (healthCheck_trace_all _ (hs _ rfl) (hs _ rfl)) ?_
  refine seqS_trace_all (all_mono hs rfl) ?_
  refine seqS_trace_all ?_ (hn _)
  split
  · exact hn _
  · rfl

theorem runCk_fst_ok {act : Action} {res : ProcResult} {msg : String}
    (h : res.returncode = 0) : (runCk act res msg).1 = Except.ok () := by
  unfold runCk check_proc
  simp [h]

theorem healthCheck_ok (w : World) (h8 : w.activeState2 = "active")
    (h9 : w.subState2 = "running") :
    healthCheck w = (Except.ok (), [Action.queryActiveState, Action.querySubState]) := by
  unfold healthCheck
  simp [h8, h9]

theorem notifyMsgs_check_proc (res : ProcResult) (msg : String) :
    notifyMsgs ((check_proc res msg).2) = [] := by
  unfold check_proc
  repeat' split
  all_goals simp [notifyMsgs]

theorem notifyMsgs_notify (g : Globals) (st : String → Nat) (b : Bool) (m : String) :
    notifyMsgs ((notify g st b m).2) = [m] := by
  unfold notify
  repeat' split
  all_goals simp [notifyMsgs]

/-- Chain step for computing results and notification messages of a
`seqS` sequence whose head succeeds and notifies nothing. -/
theorem step_chain_nil {x : StepM} {y : Unit → StepM} {r : Except PyErr Unit}
    {my : List String}
    (hx : x.1 = Except.ok ()) (hmx : notifyMsgs x.2 = [])
    (hy : (y ()).1 = r ∧ notifyMsgs ((y ()).2) = my) :
    (seqS x y).1 = r ∧ notifyMsgs ((seqS x y).2) = my := by
  rw [seqS_ok_full hx]
  refine ⟨hy.1, ?_⟩
  simp only [notifyMsgs_append, hmx, hy.2, List.nil_append]

/-- Chain step for a head that succeeds and contributes messages. -/
theorem step_chain_app {x : StepM} {y : Unit → StepM} {r : Except PyErr Unit}
    {mx my : List String}
    (hx : x.1 = Except.ok ()) (hmx : notifyMsgs x.2 = mx)
    (hy : (y ()).1 = r ∧ notifyMsgs ((y ()).2) = my) :
    (seqS x y).1 = r ∧ notifyMsgs ((seqS x y).2) = mx ++ my := by
  rw [seqS_ok_full hx]
  exact ⟨hy.1, by rw [notifyMsgs_append, hmx, hy.2]⟩

/-- When every step of the main sequence up to the queue flush succeeds
and notification delivery itself succeeds, `body` succeeds and its
notification messages are the flush-failure message (exactly when the
flusher exited non-zero) followed by the success message. -/
theorem body_flush_behavior (a : Args) (w : World) (g : Globals)
    (h1 : w.subState1 = "dead") (h2 : w.lvcreateRes.returncode = 0)
    (h3 : w.mountRes.returncode = 0) (h4 : w.rsyncRc = 0)
    (h5 : w.umountBRes.returncode = 0) (h6 : w.lvremoveBRes.returncode = 0)
    (h7 : w.rmdirRc = 0) (h8 : w.activeState2 = "active") (h9 : w.subState2 = "running")
    (hn : ∀ m, (notify g w.pushStatus (pushoverFlag a) m).1 = Except.ok ()) :
    (body a w g).1 = Except.ok ()
    ∧ notifyMsgs (body a w g).2
      = (if w.postqRc != 0 then ["Failed to flush postfix queue: " ++ w.postqOut] else [])
        ++ ["Successfully backed up cyrus volume"] := by
  have hflush_fst : ((if w.postqRc != 0 then
        notify g w.pushStatus (pushoverFlag a)
          ("Failed to flush postfix queue: " ++ w.postqOut)
      else emit []) : StepM).1 = Except.ok () := by
    split
    · exact hn _
    · rfl
  have hflush_msgs : notifyMsgs (((if w.postqRc != 0 then
        notify g w.pushStatus (pushoverFlag a)
          ("Failed to flush postfix queue: " ++ w.postqOut)
      else emit []) : StepM).2)
      = (if w.postqRc != 0 then ["Failed to flush postfix queue: " ++ w.postqOut] else []) := by
    by_cases hc : (w.postqRc != 0) = true
    · simp [hc, notifyMsgs_notify]
    · simp only [Bool.not_eq_true] at hc
      simp [hc, notifyMsgs, emit]
  unfold body
  refine step_chain_nil rfl rfl ?_
  refine step_chain_nil (by simp [h1, emit]) (by simp [h1, emit, notifyMsgs]) ?_
  refine step_chain_nil (runCk_fst_ok h2) (by simp [runCk, notifyMsgs, notifyMsgs_check_proc]) ?_
  refine step_chain_nil rfl rfl ?_
  refine step_chain_nil (runCk_fst_ok h3) (by simp [runCk, notifyMsgs, notifyMsgs_check_proc]) ?_
  refine step_chain_nil (runCk_fst_ok h4) (by simp [runCk, notifyMsgs, notifyMsgs_check_proc]) ?_
  refine step_chain_nil (runCk_fst_ok h5) (by simp [runCk, notifyMsgs, notifyMsgs_check_proc]) ?_
  refine step_chain_nil (runCk_fst_ok h6) (by simp [runCk, notifyMsgs, notifyMsgs_check_proc]) ?_
  refine step_chain_nil (runCk_fst_ok h7) (by simp [runCk, notifyMsgs, notifyMsgs_check_proc]) ?_
  refine step_chain_nil (by rw [healthCheck_ok w h8 h9]) (by rw [healthCheck_ok w h8 h9]; rfl) ?_
  refine step_chain_nil rfl rfl ?_
  refine step_chain_app hflush_fst hflush_msgs ?_
  exact ⟨hn _, notifyMsgs_notify _ _ _ _⟩

/-! The claims. -/

/-- C10: the stop-failure, snapshot-removal, push-notification-failure
and force-path volume-removal error messages are built from
non-interpolated literals: each contains its placeholder source text
verbatim, and the messages raised at run time are these constants (shown
for the snapshot-removal and pushover-failure sites by evaluating
`check_proc` and `notify`). -/
theorem C10_placeholder_literals :
    pyIn "\x7bcyrus.SubState\x7d" stopFailMsg = true
    ∧ pyIn "\x7bvg_name\x7d/\x7bbackup_vol\x7d" lvremoveBodyMsg = true
    ∧ pyIn "\x7bresp.status_code\x7d" pushFailMsg = true
    ∧ pyIn "\x7bbkup_lv_name\x7d" lvremoveForceMsg = true
    ∧ (check_proc ⟨1, none, some "boom"⟩ lvremoveBodyMsg).1
        = Except.error (PyErr.localError
            "Failed to remove logical volume \x7bvg_name\x7d/\x7bbackup_vol\x7d: boom")
    ∧ (notify ⟨some "uk", some "tk"⟩ (fun _ => 500) true "any").1
        = Except.error (PyErr.localError
            "Unable to send pushover notification: HTTP \x7bresp.status_code\x7d") := by
  refine ⟨by decide, by decide, by decide, by decide, by decide, by decide⟩

/-- C4 (code bug): in log mode the Notifier opens the mail-facility log
and writes at error severity, but the text written is the literal string
"msg", not the message it was asked to deliver: the only syslog write in
its trace carries the constant text "msg", whatever `msg` is. -/
theorem C4_log_mode_writes_literal (g : Globals) (st : String → Nat) (msg : String) :
    (notify g st false msg).1 = Except.ok ()
    ∧ Action.openlogCall LOG_MAIL ∈ (notify g st false msg).2
    ∧ Action.syslogWrite LOG_ERR "msg" ∈ (notify g st false msg).2
    ∧ ∀ pr s, Action.syslogWrite pr s ∈ (notify g st false msg).2 →
        pr = LOG_ERR ∧ s = "msg" := by
  rw [notify_log]
  refine ⟨rfl, by simp, by simp, ?_⟩
  intro pr s hmem
  simpa using hmem

/-- C1 (counterexample): a run whose validation fails (here: source
volume absent from the listing) never issues any start command: the
claim's "regardless of which step fails, at least one start command"
is false for failures before the unit handle is created. -/
theorem C1_counterexample :
    (runMain args0 wNoVol).1
      = Except.error (PyErr.localError "LVM volume vg/lv not found")
    ∧ Action.startService ∉ (runMain args0 wNoVol).2 := by
  constructor
  · decide
  · decide

/-- C1 (amended): once validation has succeeded — that is, once the
service handle is created — every run, failing or not, issues at least
one start command to the mail service before the process ends. -/
theorem C1_start_when_handle_created (a : Args) (w : World)
    (h : (validate a w).1 = Except.ok ()) :
    Action.startService ∈ (runMain a w).2 := by
  cases hb : (body a w (validate a w).2.2).1 with
  | ok u =>
    cases u
    rw [show runMain a w = _ from runMain_ok_ok a w h hb]
    simp
  | error e =>
    rw [runMain_ok_err_trace a w e h hb]
    simp

/-- Witness for C1's amended theorem at the baseline inputs. -/
theorem C1_start_when_handle_created_witness :
    Action.startService ∈ (runMain args0 w0).2 :=
  C1_start_when_handle_created args0 w0 (by decide)

/-- C6: when the source volume is absent from the (stripped) volume
listing, validation fails with the volume-not-found error, the run does
not succeed, and the trace contains no destructive action: no service
stop, no snapshot creation, no mount, no replication. -/
theorem C6_validation_fails_first (a : Args) (w : World)
    (h0 : w.lvs1rc = 0)
    (h1 : pyIn (lv_full_name a) (pyStrip w.lvs1out) = false) :
    (validate a w).1
      = Except.error (PyErr.localError ("LVM volume " ++ lv_full_name a ++ " not found"))
    ∧ (runMain a w).1 ≠ Except.ok ()
    ∧ (runMain a w).2.all (fun x => !isDestructive x) = true := by
  have hv : (validate a w).1
      = Except.error (PyErr.localError ("LVM volume " ++ lv_full_name a ++ " not found")) := by
    unfold validate validatePre lvsCheck1
    simp [h0, h1, seqS]
  refine ⟨hv, runMain_val_err_notok a w _ hv, ?_⟩
  rw [runMain_val_err a w _ hv, List.all_append]
  have hval := validate_trace_all a w (p := fun x => !isDestructive x)
    (by intro x hx; cases x <;> simp_all [validateEmittable, isDestructive])
  have hnot := notify_trace_all (p := fun x => !isDestructive x)
    (validate a w).2.2 w.pushStatus (pushoverFlag a)
    (reprErr (PyErr.localError ("LVM volume " ++ lv_full_name a ++ " not found")))
    (by intros; rfl) (by intros; rfl) (by intros; rfl) (by intros; rfl)
  rw [hval, hnot]
  rfl

theorem count_eq_zero_of_all_ne {x : Action} {t : Trace}
    (h : t.all (fun y => !(y == x)) = true) : t.count x = 0 := by
  rw [List.count_eq_zero]
  intro hmem
  have hx := List.all_eq_true.mp h x hmem
  simp at hx

/-- C7: whenever validation succeeds, the trace continues with exactly
unit load, the stop command, the fixed 5-unit sleep and a single
sub-state query; and if the sub-state then is not "dead" the run fails,
the snapshot-create command is never invoked, and the sub-state was
queried exactly once in the whole run. -/
theorem C7_stop_settle_substate (a : Args) (w : World)
    (h : (validate a w).1 = Except.ok ()) :
    (∃ post, (runMain a w).2
        = (validate a w).2.1
          ++ [Action.unitLoad, Action.stopService, Action.sleep 5, Action.querySubState]
          ++ post)
    ∧ (w.subState1 ≠ "dead" →
        (runMain a w).1 ≠ Except.ok ()
        ∧ (runMain a w).2.all (fun x => !isLvcreate x) = true
        ∧ (runMain a w).2.count Action.querySubState = 1) := by
  constructor
  · obtain ⟨r, hr⟩ := body_trace_decomp a w (validate a w).2.2
    cases hb : (body a w (validate a w).2.2).1 with
    | ok u =>
      cases u
      rw [show runMain a w = _ from runMain_ok_ok a w h hb]
      rw [hr]
      exact ⟨r ++ [Action.startService], by simp⟩
    | error e =>
      rw [runMain_ok_err_trace a w e h hb, hr]
      exact ⟨r ++ ((notify (validate a w).2.2 w.pushStatus (pushoverFlag a) (reprErr e)).2
        ++ [Action.startService]), by simp⟩
  · intro hdead
    have hbf := body_stop_fail a w (validate a w).2.2 hdead
    have hb1 : (body a w (validate a w).2.2).1
        = Except.error (PyErr.localError stopFailMsg) := by rw [hbf]
    refine ⟨runMain_ok_err_notok a w _ h hb1, ?_, ?_⟩
    · rw [runMain_ok_err_trace a w _ h hb1, hbf]
      have h1 := validate_trace_all a w (p := fun x => !isLvcreate x)
        (by intro x hx; cases x <;> simp_all [validateEmittable, isLvcreate])
      have h2 := notify_trace_all (p := fun x => !isLvcreate x)
        (validate a w).2.2 w.pushStatus (pushoverFlag a)
        (reprErr (PyErr.localError stopFailMsg))
        (by intros; rfl) (by intros; rfl) (by intros; rfl) (by intros; rfl)
      simp only [List.all_append, h1, h2, Bool.true_and, Bool.and_true]
      decide
    · rw [runMain_ok_err_trace a w _ h hb1, hbf]
      have h1 : (validate a w).2.1.count Action.querySubState = 0 :=
        count_eq_zero_of_all_ne (validate_trace_all a w
          (by intro x hx; cases x <;> simp_all [validateEmittable]))
      have h2 : ((notify (validate a w).2.2 w.pushStatus (pushoverFlag a)
          (reprErr (PyErr.localError stopFailMsg))).2.count Action.querySubState) = 0 :=
        count_eq_zero_of_all_ne (notify_trace_all _ _ _ _
          (by intros; rfl) (by intros; rfl) (by intros; rfl) (by intros; rfl))
      simp [List.count_append, h1, h2]

/-- Witness for C7 at a world whose unit is still running after the
stop request. -/
theorem C7_stop_settle_substate_witness :
    (∃ post, (runMain args0 { w0 with subState1 := "running" }).2
        = (validate args0 { w0 with subState1 := "running" }).2.1
          ++ [Action.unitLoad, Action.stopService, Action.sleep 5, Action.querySubState]
          ++ post)
    ∧ ((runMain args0 { w0 with subState1 := "running" }).1 ≠ Except.ok ()
        ∧ (runMain args0 { w0 with subState1 := "running" }).2.all
            (fun x => !isLvcreate x) = true
        ∧ (runMain args0 { w0 with subState1 := "running" }).2.count
            Action.querySubState = 1) :=
  ⟨(C7_stop_settle_substate args0 { w0 with subState1 := "running" } (by decide)).1,
   (C7_stop_settle_substate args0 { w0 with subState1 := "running" } (by decide)).2
     (by decide)⟩

/-- World whose credentials file parses to a mapping that has the
user key but lacks the MailBackup section entirely. -/
def wBadY : World := { w0 with pyParse := some ⟨true, "uk", false, false, ""⟩ }

/-- C5 (code bug): the structure check is `not A and B and C` instead of
`not (A and B and C)`, so a credentials file that has the user key but
no nested token section slips past the check and the run dies with a
`KeyError` from the token lookup rather than the "malformed credentials"
`LocalError`.  The run still aborts before the mail service is touched:
no stop command appears in the trace. -/
theorem C5_missing_section_keyerror (a : Args) (w : World) (pth : String) (d : PushoverData)
    (hpre : (validatePre a w).1 = Except.ok ())
    (hp : a.pushover_yaml = some pth) (hne : pth ≠ "")
    (hex : w.pyExists = true) (hd : w.pyParse = some d)
    (hu : d.hasUserKey = true) (hm : d.hasMailBackup = false)
    (hst : w.pushStatus (reprErr (PyErr.keyError "MailBackup")) = 200) :
    (runMain a w).1 = Except.error (PyErr.keyError "MailBackup")
    ∧ Action.stopService ∉ (runMain a w).2 := by
  have hval : (validate a w).1 = Except.error (PyErr.keyError "MailBackup")
      ∧ (validate a w).2.2 = ⟨some d.userKey, none⟩ := by
    unfold validate
    rcases hvp : validatePre a w with ⟨res, t⟩
    rw [hvp] at hpre
    simp only at hpre
    subst hpre
    simp only [pushoverSection, hp, hne, hex, hd, hu, hm]
    simp [hne, hu, hm]
  have hflag : pushoverFlag a = true := by simp [pushoverFlag, hp]
  constructor
  · simp only [runMain]
    rw [hval.1]
    simp only
    rw [hval.2, hflag, notify_push_ok _ _ _ hst]
  · rw [runMain_val_err a w _ hval.1]
    intro hmem
    rcases List.mem_append.mp hmem with hmem1 | hmem2
    · exact not_mem_validate_trace a w (by rfl) hmem1
    · rw [hflag, notify_trace_push] at hmem2
      simp at hmem2

/-- Witness for C5 at a credentials file with a user key but no
MailBackup section. -/
theorem C5_missing_section_keyerror_witness :
    (runMain argsPush wBadY).1 = Except.error (PyErr.keyError "MailBackup")
    ∧ Action.stopService ∉ (runMain argsPush wBadY).2 :=
  C5_missing_section_keyerror argsPush wBadY "/etc/po.yaml" ⟨true, "uk", false, false, ""⟩
    (by decide) rfl (by decide) rfl rfl rfl rfl (by decide)

/-- C9: both volume-existence checks are plain substring tests on the
volume listing.  Part one: with the listing command succeeding, the
source-volume check passes (observed by validation proceeding to the
first tool check) exactly when the full volume name occurs as a
substring of the stripped listing — occurrence inside a longer name
counts.  Part two: with the second listing succeeding and no force flag,
the leftover-backup-volume conflict is raised exactly when the derived
backup name occurs as a substring of the stripped listing. -/
theorem C9_substring_tests (a : Args) (w : World) :
    (w.lvs1rc = 0 →
      (Action.toolCheck "rsync --version" ∈ (validate a w).2.1
        ↔ pyIn (lv_full_name a) (pyStrip w.lvs1out) = true))
    ∧ (w.lvs2rc = 0 → a.force = false →
      ((bkupSection a w).1
          = Except.error (PyErr.localError
              ("Backup LV present (" ++ bkup_lv_full_name a ++ ")"))
        ↔ pyIn (bkup_lv_full_name a) (pyStrip w.lvs2out) = true)) := by
  constructor
  · intro h0
    by_cases hpy : pyIn (lv_full_name a) (pyStrip w.lvs1out) = true
    · simp only [hpy, iff_true]
      have hlv : lvsCheck1 (lv_full_name a) w = (Except.ok (), [Action.lvsList]) := by
        unfold lvsCheck1
        simp [h0, hpy]
      obtain ⟨r, hr⟩ : ∃ r, (runToolTests w toolTests).2
          = Action.toolCheck "rsync --version" :: r := by
        unfold toolTests runToolTests
        repeat' split
        all_goals exact ⟨_, rfl⟩
      have hmem : Action.toolCheck "rsync --version" ∈ (validatePre a w).2 := by
        unfold validatePre
        refine mem_seqS_right (by rw [hlv]) ?_
        refine mem_seqS_left ?_
        rw [hr]
        simp
      cases hvp : (validatePre a w).1 with
      | ok u =>
        cases u
        rw [validate_eq_of_pre_ok a w hvp]
        simp only
        exact List.mem_append.mpr (Or.inl hmem)
      | error e =>
        rw [validate_eq_of_pre_err a w e hvp]
        exact hmem
    · have hpy2 : pyIn (lv_full_name a) (pyStrip w.lvs1out) = false := by
        simpa using hpy
      simp only [hpy2, Bool.false_eq_true, iff_false]
      have hv : validate a w
          = (Except.error (PyErr.localError ("LVM volume " ++ lv_full_name a ++ " not found")),
             [Action.lvsList], ⟨none, none⟩) := by
        unfold validate validatePre lvsCheck1
        simp [h0, hpy2, seqS]
      rw [hv]
      simp
  · intro h2 hforce
    unfold bkupSection
    by_cases hpy : pyIn (bkup_lv_full_name a) (pyStrip w.lvs2out) = true
    · simp [h2, hpy, hforce]
    · have hpy2 : pyIn (bkup_lv_full_name a) (pyStrip w.lvs2out) = false := by
        simpa using hpy
      simp [h2, hpy2]

/-- World whose listings contain the source and backup names only inside
longer volume names. -/
def wSub : World := { w0 with lvs1out := "  vg/lvextra  ", lvs2out := "othervg/lv_bkupX" }

/-- Witness for C9: the source check passes on a listing holding only
"vg/lvextra", and the leftover conflict fires on a listing holding only
"othervg/lv_bkupX". -/
theorem C9_substring_tests_witness :
    Action.toolCheck "rsync --version" ∈ (validate args0 wSub).2.1
    ∧ (bkupSection args0 wSub).1
        = Except.error (PyErr.localError
            ("Backup LV present (" ++ bkup_lv_full_name args0 ++ ")")) :=
  ⟨((C9_substring_tests args0 wSub).1 (by decide)).mpr (by decide),
   ((C9_substring_tests args0 wSub).2 (by decide) (by decide)).mpr (by decide)⟩

/-- C8: with the force flag set, a leftover mounted mount point and a
leftover backup snapshot volume are both cleared by validation (the
trace shows the unmount and the volume removal) and the run proceeds
into the main sequence; without the force flag, an existing mount point
or a listed backup volume each aborts the run with its conflict error
before any stop command is issued. -/
theorem C8_force_and_conflicts (a₁ a₂ a₃ : Args) (w₁ w₂ w₃ : World)
    (h1f : a₁.force = true)
    (h1n : a₁.pushover_yaml = none)
    (h1k : w₁.lvs1rc = 0) (h1l : pyIn (lv_full_name a₁) (pyStrip w₁.lvs1out) = true)
    (h1m : (runToolTests w₁ toolTests).1 = Except.ok ())
    (h1a : w₁.mountPointExists = true)
    (h1b : w₁.mountQ1rc = 0)
    (h1c : pyIn ("on " ++ mount_point a₁ ++ " ") w₁.mountQ1out = true)
    (h1d : w₁.umountVrc = 0)
    (h1e : w₁.mountQ2rc = 0)
    (h1g : pyIn ("on " ++ mount_point a₁ ++ " ") w₁.mountQ2out = false)
    (h1h : w₁.lvs2rc = 0)
    (h1i : pyIn (bkup_lv_full_name a₁) (pyStrip w₁.lvs2out) = true)
    (h1j : w₁.lvrmVrc = 0)
    (h2f : a₂.force = false)
    (h2c : w₂.lvs1rc = 0) (h2d : pyIn (lv_full_name a₂) (pyStrip w₂.lvs1out) = true)
    (h2e : (runToolTests w₂ toolTests).1 = Except.ok ())
    (h2b : w₂.mountPointExists = true)
    (h3f : a₃.force = false)
    (h3b : w₃.mountPointExists = false) (h3c : w₃.mkdirRc = 0)
    (h3d : w₃.lvs1rc = 0) (h3e : pyIn (lv_full_name a₃) (pyStrip w₃.lvs1out) = true)
    (h3g : (runToolTests w₃ toolTests).1 = Except.ok ())
    (h3h : w₃.lvs2rc = 0) (h3i : pyIn (bkup_lv_full_name a₃) (pyStrip w₃.lvs2out) = true) :
    ((validate a₁ w₁).1 = Except.ok ()
      ∧ Action.umountRun (mount_point a₁) ∈ (validate a₁ w₁).2.1
      ∧ Action.lvremoveRun ("/dev/" ++ bkup_lv_full_name a₁) ∈ (validate a₁ w₁).2.1
      ∧ Action.stopService ∈ (runMain a₁ w₁).2)
    ∧ ((validate a₂ w₂).1
          = Except.error (PyErr.localError ("mount point " ++ mount_point a₂ ++ " exists"))
      ∧ Action.stopService ∉ (runMain a₂ w₂).2)
    ∧ ((validate a₃ w₃).1
          = Except.error (PyErr.localError ("Backup LV present (" ++ bkup_lv_full_name a₃ ++ ")"))
      ∧ Action.stopService ∉ (runMain a₃ w₃).2) := by
  have hlv1 : (lvsCheck1 (lv_full_name a₁) w₁).1 = Except.ok () := by
    unfold lvsCheck1
    simp [h1k, h1l]
  have hmps : mountPointSection a₁ w₁
      = (Except.ok (),
         [Action.mountQuery, Action.umountRun (mount_point a₁), Action.mountQuery]) := by
    unfold mountPointSection umountForce
    simp [h1a, h1f, h1b, h1c, h1d, h1e, h1g, seqS, emit]
  have hbk : bkupSection a₁ w₁
      = (Except.ok (),
         [Action.lvsList, Action.lvremoveRun ("/dev/" ++ bkup_lv_full_name a₁)]) := by
    unfold bkupSection runCk check_proc
    simp [h1h, h1i, h1f, h1j, seqS, emit]
  have hpre1 : (validatePre a₁ w₁).1 = Except.ok () := by
    unfold validatePre
    rw [seqS_ok_full hlv1]
    simp only
    rw [seqS_ok_full h1m]
    simp only
    rw [seqS_ok_full (show (mountPointSection a₁ w₁).1 = Except.ok () from by rw [hmps])]
    simp only
    rw [hbk]
  have hvalok1 : (validate a₁ w₁).1 = Except.ok () := by
    rw [validate_eq_of_pre_ok a₁ w₁ hpre1]
    simp [h1n, pushoverSection]
  refine ⟨⟨hvalok1, ?_, ?_, stop_in_runMain_of_validate_ok a₁ w₁ hvalok1⟩, ?_, ?_⟩
  · rw [validate_eq_of_pre_ok a₁ w₁ hpre1]
    simp only
    refine List.mem_append.mpr (Or.inl ?_)
    unfold validatePre
    refine mem_seqS_right (by rw [show lvsCheck1 (lv_full_name a₁) w₁
      = ((lvsCheck1 (lv_full_name a₁) w₁).1, (lvsCheck1 (lv_full_name a₁) w₁).2) from rfl,
      hlv1]) ?_
    refine mem_seqS_right h1m ?_
    refine mem_seqS_left ?_
    rw [hmps]
    simp
  · rw [validate_eq_of_pre_ok a₁ w₁ hpre1]
    simp only
    refine List.mem_append.mpr (Or.inl ?_)
    unfold validatePre
    refine mem_seqS_right (by rw [show lvsCheck1 (lv_full_name a₁) w₁
      = ((lvsCheck1 (lv_full_name a₁) w₁).1, (lvsCheck1 (lv_full_name a₁) w₁).2) from rfl,
      hlv1]) ?_
    refine mem_seqS_right h1m ?_
    refine mem_seqS_right (by rw [hmps]) ?_
    rw [hbk]
    simp
  · have hlv2 : (lvsCheck1 (lv_full_name a₂) w₂).1 = Except.ok () := by
      unfold lvsCheck1
      simp [h2c, h2d]
    have hsec2 : mountPointSection a₂ w₂
        = (Except.error (PyErr.localError ("mount point " ++ mount_point a₂ ++ " exists")),
           []) := by
      unfold mountPointSection
      simp [h2b, h2f]
    have hpre2 : (validatePre a₂ w₂).1
        = Except.error (PyErr.localError ("mount point " ++ mount_point a₂ ++ " exists")) := by
      unfold validatePre
      rw [seqS_ok_full hlv2]
      simp only
      rw [seqS_ok_full h2e]
      simp only
      rw [seqS_err (show (mountPointSection a₂ w₂).1 = _ from by rw [hsec2])]
      rw [hsec2]
    have hval2 : (validate a₂ w₂).1
        = Except.error (PyErr.localError ("mount point " ++ mount_point a₂ ++ " exists")) := by
      rw [validate_eq_of_pre_err a₂ w₂ _ hpre2]
    exact ⟨hval2, stop_notin_runMain_of_validate_err a₂ w₂ _ hval2⟩
  · have hlv3 : (lvsCheck1 (lv_full_name a₃) w₃).1 = Except.ok () := by
      unfold lvsCheck1
      simp [h3d, h3e]
    have hsec3 : mountPointSection a₃ w₃ = (Except.ok (), [Action.mkdirRun (mount_point a₃)]) := by
      unfold mountPointSection mkdirStep
      simp [h3b, h3c]
    have hbk3 : bkupSection a₃ w₃
        = (Except.error (PyErr.localError ("Backup LV present (" ++ bkup_lv_full_name a₃ ++ ")")),
           [Action.lvsList]) := by
      unfold bkupSection
      simp [h3h, h3i, h3f]
    have hpre3 : (validatePre a₃ w₃).1
        = Except.error (PyErr.localError ("Backup LV present (" ++ bkup_lv_full_name a₃ ++ ")")) := by
      unfold validatePre
      rw [seqS_ok_full hlv3]
      simp only
      rw [seqS_ok_full h3g]
      simp only
      rw [seqS_ok_full (show (mountPointSection a₃ w₃).1 = Except.ok () from by rw [hsec3])]
      simp only
      rw [hbk3]
    have hval3 : (validate a₃ w₃).1
        = Except.error (PyErr.localError ("Backup LV present (" ++ bkup_lv_full_name a₃ ++ ")")) := by
      rw [validate_eq_of_pre_err a₃ w₃ _ hpre3]
    exact ⟨hval3, stop_notin_runMain_of_validate_err a₃ w₃ _ hval3⟩

/-- Arguments with the force flag set. -/
def argsForce : Args := ⟨"lv", "vg", "bhost", none, true⟩

/-- World with a mounted leftover mount point and a leftover backup
volume, both removable. -/
def wLeft : World :=
  { w0 with mountPointExists := true,
            mountQ1out := "/dev/vg/x on /mnt/lv_bkup type ext4",
            mountQ2out := "",
            lvs2out := "vg/lv vg/lv_bkup" }

/-- World with an existing (unmounted) leftover mount point. -/
def wMp : World := { w0 with mountPointExists := true }

/-- World with a leftover backup volume in the listing. -/
def wBk : World := { w0 with lvs2out := "vg/lv vg/lv_bkup" }

/-- Witness for C8 at concrete leftover worlds, with and without the
force flag. -/
theorem C8_force_and_conflicts_witness :
    ((validate argsForce wLeft).1 = Except.ok ()
      ∧ Action.umountRun (mount_point argsForce) ∈ (validate argsForce wLeft).2.1
      ∧ Action.lvremoveRun ("/dev/" ++ bkup_lv_full_name argsForce) ∈ (validate argsForce wLeft).2.1
      ∧ Action.stopService ∈ (runMain argsForce wLeft).2)
    ∧ ((validate args0 wMp).1
          = Except.error (PyErr.localError ("mount point " ++ mount_point args0 ++ " exists"))
      ∧ Action.stopService ∉ (runMain args0 wMp).2)
    ∧ ((validate args0 wBk).1
          = Except.error (PyErr.localError ("Backup LV present (" ++ bkup_lv_full_name args0 ++ ")"))
      ∧ Action.stopService ∉ (runMain args0 wBk).2) :=
  C8_force_and_conflicts argsForce args0 args0 wLeft wMp wBk
    rfl rfl rfl (by decide) (by decide) rfl rfl (by decide) rfl rfl (by decide)
    rfl (by decide) rfl
    rfl rfl (by decide) (by decide) rfl
    rfl rfl rfl rfl (by decide) (by decide) rfl (by decide)

/-- C3 (counterexample): with a credentials path supplied but validation
failing before credentials are loaded (source volume absent), the
failure notification is sent in push mode — with null credentials in the
payload — and nothing is written to syslog, refuting "log mode is used
whenever credentials were not loaded". -/
theorem C3_counterexample :
    Action.pushNotify none none
        (reprErr (PyErr.localError "LVM volume vg/lv not found"))
      ∈ (runMain argsPush wNoVol).2
    ∧ (runMain argsPush wNoVol).2.all (fun x => !isSyslog x) = true := by
  constructor
  · decide
  · decide

/-- C3 (amended): the Notifier's mode is selected by whether a
credentials file path argument was supplied, not by whether credentials
were loaded: every notification of a run with a path supplied goes to
the push endpoint (never syslog), and every notification of a run
without one goes to syslog (never the push endpoint). -/
theorem C3_mode_selected_by_path (a : Args) (w : World) :
    (pushoverFlag a = true →
      (runMain a w).2.all (fun x => !isSyslog x) = true)
    ∧ (pushoverFlag a = false →
      (runMain a w).2.all (fun x => !isPush x) = true) := by
  constructor
  · intro hf
    have hs : ∀ x, nonNotify x = true → (!isSyslog x) = true := by
      intro x hx
      cases x <;> simp_all [nonNotify, isSyslog]
    have hv := validate_trace_all a w (p := fun x => !isSyslog x)
      (by intro x hx; cases x <;> simp_all [validateEmittable, isSyslog])
    have hn : ∀ (g : Globals) m,
        ((notify g w.pushStatus (pushoverFlag a) m).2.all (fun x => !isSyslog x)) = true := by
      intro g m
      rw [hf, notify_trace_push]
      rfl
    cases hval : (validate a w).1 with
    | error e =>
      rw [runMain_val_err a w e hval]
      simp [List.all_append, hv, hn _ _]
    | ok u =>
      cases u
      have hb := body_trace_all a w (validate a w).2.2 hs (fun m => hn _ m)
      cases hbr : (body a w (validate a w).2.2).1 with
      | ok u2 =>
        cases u2
        rw [show runMain a w = _ from runMain_ok_ok a w hval hbr]
        simp only [List.all_append, hv, hb, Bool.true_and, Bool.and_true]
        decide
      | error e =>
        rw [runMain_ok_err_trace a w e hval hbr]
        simp only [List.all_append, hv, hb, hn _ _, Bool.true_and, Bool.and_true]
        decide
  · intro hf
    have hs : ∀ x, nonNotify x = true → (!isPush x) = true := by
      intro x hx
      cases x <;> simp_all [nonNotify, isPush]
    have hv := validate_trace_all a w (p := fun x => !isPush x)
      (by intro x hx; cases x <;> simp_all [validateEmittable, isPush])
    have hn : ∀ (g : Globals) m,
        ((notify g w.pushStatus (pushoverFlag a) m).2.all (fun x => !isPush x)) = true := by
      intro g m
      rw [hf, notify_log]
      rfl
    cases hval : (validate a w).1 with
    | error e =>
      rw [runMain_val_err a w e hval]
      simp [List.all_append, hv, hn _ _]
    | ok u =>
      cases u
      have hb := body_trace_all a w (validate a w).2.2 hs (fun m => hn _ m)
      cases hbr : (body a w (validate a w).2.2).1 with
      | ok u2 =>
        cases u2
        rw [show runMain a w = _ from runMain_ok_ok a w hval hbr]
        simp only [List.all_append, hv, hb, Bool.true_and, Bool.and_true]
        decide
      | error e =>
        rw [runMain_ok_err_trace a w e hval hbr]
        simp only [List.all_append, hv, hb, hn _ _, Bool.true_and, Bool.and_true]
        decide

/-- Witness for C3's amended theorem: a push-mode run writes no syslog
entry, a log-mode run posts no push notification. -/
theorem C3_mode_selected_by_path_witness :
    (runMain argsPush w0).2.all (fun x => !isSyslog x) = true
    ∧ (runMain args0 w0).2.all (fun x => !isPush x) = true :=
  ⟨(C3_mode_selected_by_path argsPush w0).1 rfl,
   (C3_mode_selected_by_path args0 w0).2 rfl⟩

/-- World reaching the flush step with a failing flusher, in push mode
with a failing push endpoint. -/
def wFlushPush : World :=
  { w0 with postqRc := 1, postqOut := "deferred", pushStatus := fun _ => 500 }

/-- C2 (counterexample): a run that reaches the queue-flush step with a
non-zero flusher exit does not always complete with the success
notification: in push mode, if the flush-failure push gets a non-200
response, the notification raises, the run fails, and no success
notification is ever sent. -/
theorem C2_counterexample :
    Action.postqueueFlush ∈ (runMain argsPush wFlushPush).2
    ∧ (runMain argsPush wFlushPush).1 ≠ Except.ok ()
    ∧ "Successfully backed up cyrus volume" ∉ notifyMsgs (runMain argsPush wFlushPush).2 := by
  refine ⟨by decide, by decide, by decide⟩

/-- C2 (amended): for every run that reaches the queue-flush step and in
which notification delivery itself succeeds, a non-zero flusher exit
still completes the run successfully and sends the flush-failure
notification followed by the success notification; a zero exit sends
only the success notification. -/
theorem C2_flush_nonfatal (a : Args) (w : World)
    (hval : (validate a w).1 = Except.ok ())
    (h1 : w.subState1 = "dead") (h2 : w.lvcreateRes.returncode = 0)
    (h3 : w.mountRes.returncode = 0) (h4 : w.rsyncRc = 0)
    (h5 : w.umountBRes.returncode = 0) (h6 : w.lvremoveBRes.returncode = 0)
    (h7 : w.rmdirRc = 0) (h8 : w.activeState2 = "active") (h9 : w.subState2 = "running")
    (hn : ∀ m, (notify (validate a w).2.2 w.pushStatus (pushoverFlag a) m).1
        = Except.ok ()) :
    (w.postqRc ≠ 0 →
      (runMain a w).1 = Except.ok ()
      ∧ notifyMsgs (runMain a w).2
          = ["Failed to flush postfix queue: " ++ w.postqOut,
             "Successfully backed up cyrus volume"])
    ∧ (w.postqRc = 0 →
      (runMain a w).1 = Except.ok ()
      ∧ notifyMsgs (runMain a w).2 = ["Successfully backed up cyrus volume"]) := by
  obtain ⟨hb1, hb2⟩ :=
    body_flush_behavior a w (validate a w).2.2 h1 h2 h3 h4 h5 h6 h7 h8 h9 hn
  have hrm := runMain_ok_ok a w hval hb1
  have ht : (runMain a w).2
      = (validate a w).2.1 ++ (body a w (validate a w).2.2).2 ++ [Action.startService] := by
    rw [hrm]
  have hmsgs0 : notifyMsgs (validate a w).2.1 = [] :=
    notifyMsgs_eq_nil_of_emittable _ (validate_trace_all a w (fun _ h => h))
  constructor <;> intro hc
  · have hcond : (w.postqRc != 0) = true := bne_iff_ne.mpr hc
    refine ⟨by rw [hrm], ?_⟩
    rw [ht, notifyMsgs_append, notifyMsgs_append, hmsgs0, hb2, hcond]
    simp [notifyMsgs]
  · have hcond : (w.postqRc != 0) = false := by simp [hc]
    refine ⟨by rw [hrm], ?_⟩
    rw [ht, notifyMsgs_append, notifyMsgs_append, hmsgs0, hb2, hcond]
    simp [notifyMsgs]

/-- World reaching the flush step with a failing flusher, in log mode. -/
def wFlushFail : World := { w0 with postqRc := 1, postqOut := "deferred" }

/-- Witness for C2's amended theorem at a failing and a succeeding
flusher. -/
theorem C2_flush_nonfatal_witness :
    ((runMain args0 wFlushFail).1 = Except.ok ()
      ∧ notifyMsgs (runMain args0 wFlushFail).2
          = ["Failed to flush postfix queue: " ++ wFlushFail.postqOut,
             "Successfully backed up cyrus volume"])
    ∧ ((runMain args0 w0).1 = Except.ok ()
      ∧ notifyMsgs (runMain args0 w0).2 = ["Successfully backed up cyrus volume"]) :=
  ⟨(C2_flush_nonfatal args0 wFlushFail (by decide) rfl rfl rfl rfl rfl rfl rfl rfl rfl
      (fun m => rfl)).1 (by decide),
   (C2_flush_nonfatal args0 w0 (by decide) rfl rfl rfl rfl rfl rfl rfl rfl rfl
      (fun m => rfl)).2 rfl⟩

/-- Witness for C6 at the baseline arguments and the no-volume world. -/
theorem C6_validation_fails_first_witness :
    (validate args0 wNoVol).1
      = Except.error (PyErr.localError ("LVM volume " ++ lv_full_name args0 ++ " not found"))
    ∧ (runMain args0 wNoVol).1 ≠ Except.ok ()
    ∧ (runMain args0 wNoVol).2.all (fun x => !isDestructive x) = true :=
  C6_validation_fails_first args0 wNoVol (by decide) (by decide)

end CyrusBackup
